import Mathlib

/-!
Verification of the EMI MCP relay server (`src/mcpdeployment/emi_calculator.py`).

The module is a thin adapter: four tool handlers build a JSON payload from
their arguments and delegate to one HTTP helper that POSTs the payload to
the configured backend and returns the parsed JSON response, converting any
`requests.exceptions.RequestException` into a structured error dictionary.

The embedding below follows the Python source line by line.  The network is
an oracle mapping a request (url, payload) to an outcome: either a raised
transport exception carrying its string form, or an HTTP response with a
status code, a reason phrase and a parsed JSON body.  Each tool handler is a
function of that oracle; next to its Python return value it also records the
list of outbound requests it issued, so that claims about what is (or is
not) sent over the wire can be stated.
-/

/-- JSON values exchanged with the backend (shallow embedding of Python values). -/
inductive Json where
  | null : Json
  | bool (b : Bool) : Json
  | num (q : ℚ) : Json
  | str (s : String) : Json
  | arr (elems : List Json) : Json
  | obj (entries : List (String × Json)) : Json

/-- A Python dictionary with string keys, as an insertion-ordered association list. -/
abbrev Dict := List (String × Json)

/-- Lookup `d.get k`, modelling Python `d.get(k)`: `some v` when the key is
present, `none` when absent. -/
def Dict.get (d : Dict) (k : String) : Option Json :=
  (d.find? (fun kv => kv.1 == k)).map (fun kv => kv.2)

/-- Outcome of one attempted HTTP POST, as seen by the `requests` caller:
either a raised `requests.exceptions.RequestException` whose `str(e)` is
`msg` (timeout, DNS failure, connection refused, ...), or a completed HTTP
response with its status code, reason phrase, and parsed JSON body. -/
inductive HttpOutcome where
  | exn (msg : String) : HttpOutcome
  | response (status : Nat) (reason : String) (body : Json) : HttpOutcome

/-- The external backend as an oracle: what happens when a given payload is
POSTed to a given URL. -/
abbrev Network := String → Json → HttpOutcome

/-- One outbound HTTP request as issued by `requests.post(url, json=payload,
timeout=10)`. -/
structure Request where
  url : String
  payload : Json
  timeout : Nat

/-- Environment lookup `os.getenv(name, default)`: the default only when the
variable is unset; the stored value (even the empty string) when it is set. -/
def os.getenv (value : Option String) (default : String) : String :=
  match value with
  | none => default
  | some v => v

/-- Module-level constant `BASE_URL = os.getenv("EMI_API_BASE_URL",
"http://localhost:8000/api")`, as a function of the environment variable's
state at startup. -/
def BASE_URL (env : Option String) : String :=
  os.getenv env "http://localhost:8000/api"

/-- Message of the `requests.exceptions.HTTPError` raised by
`Response.raise_for_status()` for a status code in [400, 600): requests
formats it as `"<code> Client Error: <reason> for url: <url>"` for 4xx and
`"<code> Server Error: <reason> for url: <url>"` for 5xx. -/
def httpErrorMsg (status : Nat) (reason url : String) : String :=
  toString status
    ++ (if status < 500 then " Client Error: " else " Server Error: ")
    ++ reason ++ " for url: " ++ url

/-- Predicate for `Response.raise_for_status()`: it raises exactly for
status codes in [400, 600); informational, success and redirect statuses
pass through silently. -/
def raiseForStatus (status : Nat) : Bool :=
  decide (400 ≤ status) && decide (status < 600)

/-- Error dictionary `{"error": "backend_error", "details": str(e),
"payload": payload}` built in the `except` branch of `_post`. -/
def backendError (details : String) (payload : Json) : Json :=
  Json.obj
    [("error", Json.str "backend_error"),
     ("details", Json.str details),
     ("payload", payload)]

/-- Result of `_post`: the returned JSON value together with the single
outbound request that was issued. -/
structure PostResult where
  result : Json
  request : Request

/-- Relay helper `_post(path, payload)`: build `url = f"{BASE_URL}{path}"`,
POST the payload as JSON with `timeout=10`, call `raise_for_status()`, and
return the parsed body; any `RequestException` (raised transport error or
the `HTTPError` from a 4xx/5xx status) is caught and converted to the
`backend_error` dictionary carrying `str(e)` and the original payload. -/
def post (net : Network) (baseUrl path : String) (payload : Json) : PostResult :=
  let url := baseUrl ++ path
  let req : Request := ⟨url, payload, 10⟩
  match net url payload with
  | HttpOutcome.exn msg => ⟨backendError msg payload, req⟩
  | HttpOutcome.response status reason body =>
      if raiseForStatus status then
        ⟨backendError (httpErrorMsg status reason url) payload, req⟩
      else
        ⟨body, req⟩

/-- Whether an outcome makes `_post` take its `except` branch: a raised
transport exception, or a response whose status makes `raise_for_status()`
raise. -/
def HttpOutcome.fails : HttpOutcome → Bool
  | HttpOutcome.exn _ => true
  | HttpOutcome.response status _ _ => raiseForStatus status

/-- String form `str(e)` of the exception `_post` catches for a failing
outcome: the transport exception's own message, or the formatted
`HTTPError` message for a 4xx/5xx response to `url`. -/
def HttpOutcome.details (url : String) : HttpOutcome → String
  | HttpOutcome.exn msg => msg
  | HttpOutcome.response status reason _ => httpErrorMsg status reason url

/-- Side condition that a raised transport exception stringifies to a
non-empty message (true of every exception `requests` raises in practice);
trivially satisfied by completed responses. -/
def HttpOutcome.exnMsgNonempty : HttpOutcome → Prop
  | HttpOutcome.exn msg => msg ≠ ""
  | HttpOutcome.response _ _ _ => True

/-- Result of a tool call: its Python return value (`Except.error` models an
uncaught Python exception, such as the `KeyError` that `compare_loans` lets
propagate) together with the list of outbound HTTP requests issued during
the call. -/
structure ToolOutcome where
  result : Except String Json
  requests : List Request

/-- Default value of every handler's `calculation_method` parameter. -/
def defaultCalculationMethod : String := "reducing"

/-- Payload dictionary built by `calculate_emi`. -/
def calculateEmiPayload (principal interestRate : ℚ) (tenure : ℤ)
    (calculation_method : String) : Json :=
  Json.obj
    [("principal", Json.num principal),
     ("annual_rate", Json.num interestRate),
     ("tenure_months", Json.num tenure),
     ("calculation_method", Json.str calculation_method)]

/-- Tool 1, `calculate_emi`: build the payload and delegate to
`_post("/calculate-emi", payload)`. -/
def calculate_emi (net : Network) (baseUrl : String)
    (principal interestRate : ℚ) (tenure : ℤ)
    (calculation_method : String) : ToolOutcome :=
  let payload := calculateEmiPayload principal interestRate tenure calculation_method
  let r := post net baseUrl "/calculate-emi" payload
  ⟨Except.ok r.result, [r.request]⟩

/-- Payload dictionary built by `calculate_schedule` (transcribed from its
own payload literal in the source). -/
def calculateSchedulePayload (principal interestRate : ℚ) (tenure : ℤ)
    (calculation_method : String) : Json :=
  Json.obj
    [("principal", Json.num principal),
     ("annual_rate", Json.num interestRate),
     ("tenure_months", Json.num tenure),
     ("calculation_method", Json.str calculation_method)]

/-- Tool 2, `calculate_schedule`: build the payload and delegate to
`_post("/amortization-schedule", payload)`. -/
def calculate_schedule (net : Network) (baseUrl : String)
    (principal interestRate : ℚ) (tenure : ℤ)
    (calculation_method : String) : ToolOutcome :=
  let payload := calculateSchedulePayload principal interestRate tenure calculation_method
  let r := post net baseUrl "/amortization-schedule" payload
  ⟨Except.ok r.result, [r.request]⟩

/-- Normalization of one scenario dictionary inside `compare_loans`' loop:
`scenario.get("name")` (absent becomes `None`), indexing for the three
required keys (a `KeyError` when absent, in the evaluation order of the
dict literal: `principal`, then `interestRate`, then `tenure`), and
`scenario.get("calculation_method", calculation_method)` for the default. -/
def formatScenario (calculation_method : String) (scenario : Dict) :
    Except String Dict :=
  match scenario.get "principal" with
  | none => Except.error "KeyError: principal"
  | some p =>
    match scenario.get "interestRate" with
    | none => Except.error "KeyError: interestRate"
    | some ir =>
      match scenario.get "tenure" with
      | none => Except.error "KeyError: tenure"
      | some t =>
        Except.ok
          [("name", (scenario.get "name").getD Json.null),
           ("principal", p),
           ("annual_rate", ir),
           ("tenure_months", t),
           ("calculation_method",
             (scenario.get "calculation_method").getD (Json.str calculation_method))]

/-- Loop of `compare_loans`: normalize the scenarios in order, appending to
`formatted_scenarios`; the first scenario with a missing required key raises
a `KeyError` that aborts the whole loop. -/
def formatScenarios (calculation_method : String) : List Dict → Except String (List Dict)
  | [] => Except.ok []
  | s :: rest =>
    match formatScenario calculation_method s with
    | Except.error e => Except.error e
    | Except.ok d =>
      match formatScenarios calculation_method rest with
      | Except.error e => Except.error e
      | Except.ok ds => Except.ok (d :: ds)

/-- Tool 3, `compare_loans`: normalize every scenario (an uncaught
`KeyError` aborts the call before `_post` runs, so no request is issued),
wrap the list as `{"scenarios": [...]}`, and delegate to
`_post("/compare-loans", payload)`. -/
def compare_loans (net : Network) (baseUrl : String)
    (scenarios : List Dict) (calculation_method : String) : ToolOutcome :=
  match formatScenarios calculation_method scenarios with
  | Except.error e => ⟨Except.error e, []⟩
  | Except.ok formatted =>
      let payload := Json.obj [("scenarios", Json.arr (formatted.map Json.obj))]
      let r := post net baseUrl "/compare-loans" payload
      ⟨Except.ok r.result, [r.request]⟩

/-- Payload dictionary built by `calculate_with_prepayment`. -/
def calculateWithPrepaymentPayload (principal interestRate : ℚ) (tenure : ℤ)
    (prepayment_amount : ℚ) (prepayment_frequency : String)
    (prepayment_start_month : ℤ) (calculation_method : String) : Json :=
  Json.obj
    [("principal", Json.num principal),
     ("annual_rate", Json.num interestRate),
     ("tenure_months", Json.num tenure),
     ("prepayment_amount", Json.num prepayment_amount),
     ("prepayment_frequency", Json.str prepayment_frequency),
     ("prepayment_start_month", Json.num prepayment_start_month),
     ("calculation_method", Json.str calculation_method)]

/-- Tool 4, `calculate_with_prepayment`: build the payload and delegate to
`_post("/calculate-with-prepayment", payload)`. -/
def calculate_with_prepayment (net : Network) (baseUrl : String)
    (principal interestRate : ℚ) (tenure : ℤ)
    (prepayment_amount : ℚ) (prepayment_frequency : String)
    (prepayment_start_month : ℤ) (calculation_method : String) : ToolOutcome :=
  let payload := calculateWithPrepaymentPayload principal interestRate tenure
    prepayment_amount prepayment_frequency prepayment_start_month calculation_method
  let r := post net baseUrl "/calculate-with-prepayment" payload
  ⟨Except.ok r.result, [r.request]⟩

/-- Normal form of a scenario all of whose required keys are present: what
the loop body of `compare_loans` appends for it. -/
def formatScenarioOk (calculation_method : String) (scenario : Dict) : Dict :=
  [("name", (scenario.get "name").getD Json.null),
   ("principal", (scenario.get "principal").getD Json.null),
   ("annual_rate", (scenario.get "interestRate").getD Json.null),
   ("tenure_months", (scenario.get "tenure").getD Json.null),
   ("calculation_method",
     (scenario.get "calculation_method").getD (Json.str calculation_method))]

/-- Backend oracle that always answers 304 Not Modified with a JSON body:
a non-2xx response that `raise_for_status()` does not raise on. -/
def net304 : Network :=
  fun _ _ => HttpOutcome.response 304 "Not Modified" (Json.obj [("ok", Json.bool true)])

/-- Backend oracle on which every connection attempt raises a transport
exception. -/
def netDown : Network :=
  fun _ _ => HttpOutcome.exn "connection refused"

/-- Backend oracle that always answers HTTP 200 with body `{"emi": 8792.5}`. -/
def net200emi : Network :=
  fun _ _ => HttpOutcome.response 200 "OK" (Json.obj [("emi", Json.num (17585 / 2))])

/-- Every `_post` call issues exactly one request: the base URL concatenated
with the route, the given payload, and the fixed 10 second timeout. -/
theorem post_request (net : Network) (baseUrl path : String) (payload : Json) :
    (post net baseUrl path payload).request = ⟨baseUrl ++ path, payload, 10⟩ := by
  cases hnet : net (baseUrl ++ path) payload with
  | exn msg => simp [post, hnet]
  | response status reason body =>
    cases h : raiseForStatus status <;> simp [post, hnet, h]

/-- Statuses in [200, 300) never make `raise_for_status()` raise. -/
theorem raiseForStatus_eq_false_of_2xx (status : Nat)
    (h1 : 200 ≤ status) (h2 : status < 300) : raiseForStatus status = false := by
  unfold raiseForStatus
  simp only [Bool.and_eq_false_iff, decide_eq_false_iff_not]
  omega

/-- On a completed response whose status does not raise, `_post` returns the
parsed body unchanged. -/
theorem post_success (net : Network) (baseUrl path : String) (payload : Json)
    (status : Nat) (reason : String) (body : Json)
    (hnet : net (baseUrl ++ path) payload = HttpOutcome.response status reason body)
    (hstatus : raiseForStatus status = false) :
    (post net baseUrl path payload).result = body := by
  simp [post, hnet, hstatus]

/-- On a failing outcome, `_post` returns the `backend_error` dictionary
carrying the caught exception's string form and the original payload. -/
theorem post_fails (net : Network) (baseUrl path : String) (payload : Json)
    (h : (net (baseUrl ++ path) payload).fails = true) :
    (post net baseUrl path payload).result
      = backendError
          ((net (baseUrl ++ path) payload).details (baseUrl ++ path)) payload := by
  cases hnet : net (baseUrl ++ path) payload with
  | exn msg => simp [post, hnet, HttpOutcome.details]
  | response status reason body =>
    rw [hnet] at h
    simp only [HttpOutcome.fails] at h
    simp [post, hnet, HttpOutcome.details, h]

/-- Messages formatted by `raise_for_status()` are never empty. -/
theorem httpErrorMsg_ne_empty (status : Nat) (reason url : String) :
    httpErrorMsg status reason url ≠ "" := by
  intro h
  unfold httpErrorMsg at h
  rcases Nat.lt_or_ge status 500 with hs | hs
  · rw [if_pos hs] at h
    have hlen := congrArg String.length h
    simp [String.length_append,
      show (" Client Error: ").length = 15 from rfl,
      show (" for url: ").length = 10 from rfl] at hlen
  · rw [if_neg (Nat.not_lt.mpr hs)] at h
    have hlen := congrArg String.length h
    simp [String.length_append,
      show (" Server Error: ").length = 15 from rfl,
      show (" for url: ").length = 10 from rfl] at hlen

/-- String forms of caught failures are non-empty, given that the raised
transport exception (if that is what happened) stringifies non-empty. -/
theorem details_ne_empty (url : String) (o : HttpOutcome)
    (hmsg : o.exnMsgNonempty) : o.details url ≠ "" := by
  cases o with
  | exn msg => exact hmsg
  | response status reason body => exact httpErrorMsg_ne_empty status reason url

/-- A scenario with every required key present normalizes to its five-key
normal form. -/
theorem formatScenario_eq_ok (calculation_method : String) (s : Dict)
    (hp : (Dict.get s "principal").isSome = true)
    (hi : (Dict.get s "interestRate").isSome = true)
    (ht : (Dict.get s "tenure").isSome = true) :
    formatScenario calculation_method s
      = Except.ok (formatScenarioOk calculation_method s) := by
  cases hp2 : Dict.get s "principal" with
  | none => rw [hp2] at hp; simp at hp
  | some p =>
    cases hi2 : Dict.get s "interestRate" with
    | none => rw [hi2] at hi; simp at hi
    | some ir =>
      cases ht2 : Dict.get s "tenure" with
      | none => rw [ht2] at ht; simp at ht
      | some t => simp [formatScenario, formatScenarioOk, hp2, hi2, ht2]

/-- When every scenario has all required keys, the loop of `compare_loans`
succeeds and returns the pointwise normal forms, in the input order. -/
theorem formatScenarios_eq_ok (calculation_method : String) (scenarios : List Dict)
    (h : ∀ s ∈ scenarios, (Dict.get s "principal").isSome = true
        ∧ (Dict.get s "interestRate").isSome = true
        ∧ (Dict.get s "tenure").isSome = true) :
    formatScenarios calculation_method scenarios
      = Except.ok (scenarios.map (formatScenarioOk calculation_method)) := by
  induction scenarios with
  | nil => rfl
  | cons s rest ih =>
    obtain ⟨hp, hi, ht⟩ := h s (List.mem_cons_self s rest)
    have hrest := ih (fun x hx => h x (List.mem_cons_of_mem s hx))
    simp [formatScenarios, formatScenario_eq_ok calculation_method s hp hi ht, hrest]

/-- A scenario missing a required key makes the loop body of `compare_loans`
raise a `KeyError`. -/
theorem formatScenario_error (calculation_method : String) (s : Dict)
    (hmiss : Dict.get s "principal" = none ∨ Dict.get s "interestRate" = none
        ∨ Dict.get s "tenure" = none) :
    ∃ e, formatScenario calculation_method s = Except.error e := by
  rcases hmiss with h | h | h
  · exact ⟨"KeyError: principal", by simp [formatScenario, h]⟩
  · cases hp : Dict.get s "principal" with
    | none => exact ⟨"KeyError: principal", by simp [formatScenario, hp]⟩
    | some p => exact ⟨"KeyError: interestRate", by simp [formatScenario, hp, h]⟩
  · cases hp : Dict.get s "principal" with
    | none => exact ⟨"KeyError: principal", by simp [formatScenario, hp]⟩
    | some p =>
      cases hi : Dict.get s "interestRate" with
      | none => exact ⟨"KeyError: interestRate", by simp [formatScenario, hp, hi]⟩
      | some ir => exact ⟨"KeyError: tenure", by simp [formatScenario, hp, hi, h]⟩

/-- Some scenario missing a required key makes the whole loop of
`compare_loans` raise. -/
theorem formatScenarios_error (calculation_method : String) (scenarios : List Dict)
    (s : Dict) (hs : s ∈ scenarios)
    (hmiss : Dict.get s "principal" = none ∨ Dict.get s "interestRate" = none
        ∨ Dict.get s "tenure" = none) :
    ∃ e, formatScenarios calculation_method scenarios = Except.error e := by
  induction scenarios with
  | nil => cases hs
  | cons hd rest ih =>
    rcases List.mem_cons.mp hs with heq | hmem
    · subst heq
      obtain ⟨e, he⟩ := formatScenario_error calculation_method s hmiss
      exact ⟨e, by simp [formatScenarios, he]⟩
    · cases hfmt : formatScenario calculation_method hd with
      | error e => exact ⟨e, by simp [formatScenarios, hfmt]⟩
      | ok d =>
        obtain ⟨e, he⟩ := ih hmem
        exact ⟨e, by simp [formatScenarios, hfmt, he]⟩

/-- On a successfully normalized scenarios list, `compare_loans` issues the
single request carrying the wrapped scenarios payload. -/
theorem compare_loans_requests_ok (net : Network)
    (baseUrl calculation_method : String)
    (scenarios : List Dict) (formatted : List Dict)
    (h : formatScenarios calculation_method scenarios = Except.ok formatted) :
    (compare_loans net baseUrl scenarios calculation_method).requests
      = [⟨baseUrl ++ "/compare-loans",
          Json.obj [("scenarios", Json.arr (formatted.map Json.obj))], 10⟩] := by
  simp [compare_loans, h, post_request]

/-- C3: for every input, `calculate_emi` builds exactly the outbound payload
`{"principal": principal, "annual_rate": interestRate, "tenure_months":
tenure, "calculation_method": calculation_method}` with no other keys, posts
it to route `/calculate-emi` (and the method parameter defaults to
`"reducing"`). -/
theorem c3_calculate_emi_payload (net : Network) (baseUrl : String)
    (principal interestRate : ℚ) (tenure : ℤ) (calculation_method : String) :
    (calculate_emi net baseUrl principal interestRate tenure
        calculation_method).requests
      = [⟨baseUrl ++ "/calculate-emi",
          Json.obj
            [("principal", Json.num principal),
             ("annual_rate", Json.num interestRate),
             ("tenure_months", Json.num tenure),
             ("calculation_method", Json.str calculation_method)], 10⟩]
    ∧ defaultCalculationMethod = "reducing" := by
  refine ⟨?_, rfl⟩
  simp [calculate_emi, post_request, calculateEmiPayload]

/-- C9: `calculate_schedule` builds the same payload as `calculate_emi` on
the same inputs; the two tools issue single requests that differ only in
the route (`/amortization-schedule` versus `/calculate-emi`). -/
theorem c9_schedule_same_payload (net : Network) (baseUrl : String)
    (principal interestRate : ℚ) (tenure : ℤ) (calculation_method : String) :
    calculateSchedulePayload principal interestRate tenure calculation_method
      = calculateEmiPayload principal interestRate tenure calculation_method
    ∧ (calculate_schedule net baseUrl principal interestRate tenure
          calculation_method).requests
        = [⟨baseUrl ++ "/amortization-schedule",
            calculateEmiPayload principal interestRate tenure calculation_method,
            10⟩]
    ∧ (calculate_emi net baseUrl principal interestRate tenure
          calculation_method).requests
        = [⟨baseUrl ++ "/calculate-emi",
            calculateEmiPayload principal interestRate tenure calculation_method,
            10⟩] := by
  refine ⟨rfl, ?_, ?_⟩ <;>
    simp [calculate_schedule, calculate_emi, post_request,
      calculateSchedulePayload, calculateEmiPayload]

/-- C6 (counterexample): with `EMI_API_BASE_URL` set to the empty string,
`BASE_URL` is the empty string, not the documented default, so the claim
that it equals the default when the variable is empty is false on the code. -/
theorem c6_counterexample :
    BASE_URL (some "") = "" ∧ BASE_URL (some "") ≠ "http://localhost:8000/api" :=
  ⟨rfl, by decide⟩

/-- C6 (amended): `BASE_URL` equals `http://localhost:8000/api` when the
environment variable is unset, and equals the stored value (even the empty
string) whenever the variable is set. -/
theorem c6_amended :
    BASE_URL none = "http://localhost:8000/api"
    ∧ ∀ v : String, BASE_URL (some v) = v :=
  ⟨rfl, fun _ => rfl⟩

/-- C4: `compare_loans` with the single scenario `{"principal": 100000,
"interestRate": 9.5, "tenure": 12}` and the default method builds exactly
the payload `{"scenarios": [{"name": null, "principal": 100000,
"annual_rate": 9.5, "tenure_months": 12, "calculation_method":
"reducing"}]}`: the absent name maps to null and the absent per-scenario
method defaults to the tool-level default. -/
theorem c4_compare_loans_example (net : Network) :
    (compare_loans net "http://localhost:8000/api"
        [[("principal", Json.num 100000),
          ("interestRate", Json.num (19 / 2)),
          ("tenure", Json.num 12)]]
        defaultCalculationMethod).requests
      = [⟨"http://localhost:8000/api" ++ "/compare-loans",
          Json.obj
            [("scenarios", Json.arr
              [Json.obj
                [("name", Json.null),
                 ("principal", Json.num 100000),
                 ("annual_rate", Json.num (19 / 2)),
                 ("tenure_months", Json.num 12),
                 ("calculation_method", Json.str "reducing")]])], 10⟩] := by
  rw [compare_loans_requests_ok net "http://localhost:8000/api"
      defaultCalculationMethod
      [[("principal", Json.num 100000),
        ("interestRate", Json.num (19 / 2)),
        ("tenure", Json.num 12)]]
      [[("name", Json.null),
        ("principal", Json.num 100000),
        ("annual_rate", Json.num (19 / 2)),
        ("tenure_months", Json.num 12),
        ("calculation_method", Json.str "reducing")]]
      (by rfl)]
  rfl

/-- C2: on a 2xx response with JSON body `b`, the relay `_post` returns the
parsed body `b` unchanged, and so does the calling tool, e.g.
`calculate_emi`. -/
theorem c2_success_passthrough (net : Network) (baseUrl path : String)
    (payload body : Json) (status : Nat) (reason : String)
    (principal interestRate : ℚ) (tenure : ℤ) (calculation_method : String)
    (h1 : 200 ≤ status) (h2 : status < 300) :
    (net (baseUrl ++ path) payload = HttpOutcome.response status reason body →
      (post net baseUrl path payload).result = body)
    ∧ (net (baseUrl ++ "/calculate-emi")
          (calculateEmiPayload principal interestRate tenure calculation_method)
            = HttpOutcome.response status reason body →
        (calculate_emi net baseUrl principal interestRate tenure
            calculation_method).result = Except.ok body) := by
  constructor
  · intro hnet
    exact post_success net baseUrl path payload status reason body hnet
      (raiseForStatus_eq_false_of_2xx status h1 h2)
  · intro hnet
    have hres := post_success net baseUrl "/calculate-emi"
      (calculateEmiPayload principal interestRate tenure calculation_method)
      status reason body hnet (raiseForStatus_eq_false_of_2xx status h1 h2)
    simp [calculate_emi, hres]

/-- C2 witness: a 200 response with body `{"emi": 8792.5}` is passed
through by `calculate_emi` unchanged. -/
theorem c2_success_passthrough_witness :
    (calculate_emi net200emi "http://localhost:8000/api" 100000 (19 / 2) 12
        "reducing").result
      = Except.ok (Json.obj [("emi", Json.num (17585 / 2))]) :=
  (c2_success_passthrough net200emi "http://localhost:8000/api" "/calculate-emi"
      Json.null (Json.obj [("emi", Json.num (17585 / 2))]) 200 "OK"
      100000 (19 / 2) 12 "reducing" (by decide) (by decide)).2 rfl

/-- C1 (counterexample): a 304 Not Modified response is a non-2xx outcome,
yet `calculate_emi` passes its parsed body through instead of returning the
`backend_error` dictionary, so the claim that every non-2xx status yields
the error dictionary is false on the code. -/
theorem c1_counterexample :
    (calculate_emi net304 "http://localhost:8000/api" 100000 (19 / 2) 12
        "reducing").result
      = Except.ok (Json.obj [("ok", Json.bool true)])
    ∧ ¬ ∃ details payload,
        (calculate_emi net304 "http://localhost:8000/api" 100000 (19 / 2) 12
            "reducing").result
          = Except.ok (backendError details payload) := by
  constructor
  · rfl
  · rintro ⟨d, p, h⟩
    rw [show (calculate_emi net304 "http://localhost:8000/api" 100000 (19 / 2) 12
        "reducing").result = Except.ok (Json.obj [("ok", Json.bool true)])
      from rfl] at h
    simp [backendError] at h

/-- C1 (amended): whenever the outbound request raises a transport
exception or the response status is 4xx/5xx (exactly the statuses
`raise_for_status()` raises on), every tool returns, rather than raises,
`{"error": "backend_error", "details": d, "payload": p}` where `p` is
exactly the outbound payload and `d` is the caught exception's string form,
which is non-empty whenever a raised transport exception stringifies
non-empty and always for 4xx/5xx statuses; a 3xx status is instead passed
through like a success. -/
theorem c1_amended_backend_error (net : Network) (baseUrl : String)
    (principal interestRate prepayment_amount : ℚ)
    (tenure prepayment_start_month : ℤ)
    (prepayment_frequency calculation_method : String)
    (scenarios : List Dict) (formatted : List Dict) :
    ((net (baseUrl ++ "/calculate-emi")
        (calculateEmiPayload principal interestRate tenure
          calculation_method)).fails = true →
      (calculate_emi net baseUrl principal interestRate tenure
          calculation_method).result
        = Except.ok (backendError
            ((net (baseUrl ++ "/calculate-emi")
                (calculateEmiPayload principal interestRate tenure
                  calculation_method)).details (baseUrl ++ "/calculate-emi"))
            (calculateEmiPayload principal interestRate tenure
              calculation_method)))
    ∧ ((net (baseUrl ++ "/amortization-schedule")
        (calculateSchedulePayload principal interestRate tenure
          calculation_method)).fails = true →
      (calculate_schedule net baseUrl principal interestRate tenure
          calculation_method).result
        = Except.ok (backendError
            ((net (baseUrl ++ "/amortization-schedule")
                (calculateSchedulePayload principal interestRate tenure
                  calculation_method)).details
              (baseUrl ++ "/amortization-schedule"))
            (calculateSchedulePayload principal interestRate tenure
              calculation_method)))
    ∧ ((net (baseUrl ++ "/calculate-with-prepayment")
        (calculateWithPrepaymentPayload principal interestRate tenure
          prepayment_amount prepayment_frequency prepayment_start_month
          calculation_method)).fails = true →
      (calculate_with_prepayment net baseUrl principal interestRate tenure
          prepayment_amount prepayment_frequency prepayment_start_month
          calculation_method).result
        = Except.ok (backendError
            ((net (baseUrl ++ "/calculate-with-prepayment")
                (calculateWithPrepaymentPayload principal interestRate tenure
                  prepayment_amount prepayment_frequency prepayment_start_month
                  calculation_method)).details
              (baseUrl ++ "/calculate-with-prepayment"))
            (calculateWithPrepaymentPayload principal interestRate tenure
              prepayment_amount prepayment_frequency prepayment_start_month
              calculation_method)))
    ∧ (formatScenarios calculation_method scenarios = Except.ok formatted →
      (net (baseUrl ++ "/compare-loans")
        (Json.obj [("scenarios",
          Json.arr (formatted.map Json.obj))])).fails = true →
      (compare_loans net baseUrl scenarios calculation_method).result
        = Except.ok (backendError
            ((net (baseUrl ++ "/compare-loans")
                (Json.obj [("scenarios",
                  Json.arr (formatted.map Json.obj))])).details
              (baseUrl ++ "/compare-loans"))
            (Json.obj [("scenarios", Json.arr (formatted.map Json.obj))])))
    ∧ (∀ url : String, ∀ o : HttpOutcome,
        o.exnMsgNonempty → o.details url ≠ "") := by
  refine ⟨?_, ?_, ?_, ?_, fun url o hmsg => details_ne_empty url o hmsg⟩
  · intro hfail
    have hres := post_fails net baseUrl "/calculate-emi"
      (calculateEmiPayload principal interestRate tenure calculation_method) hfail
    simp [calculate_emi, hres]
  · intro hfail
    have hres := post_fails net baseUrl "/amortization-schedule"
      (calculateSchedulePayload principal interestRate tenure calculation_method)
      hfail
    simp [calculate_schedule, hres]
  · intro hfail
    have hres := post_fails net baseUrl "/calculate-with-prepayment"
      (calculateWithPrepaymentPayload principal interestRate tenure
        prepayment_amount prepayment_frequency prepayment_start_month
        calculation_method) hfail
    simp [calculate_with_prepayment, hres]
  · intro hfmt hfail
    have hres := post_fails net baseUrl "/compare-loans"
      (Json.obj [("scenarios", Json.arr (formatted.map Json.obj))]) hfail
    simp [compare_loans, hfmt, hres]

/-- C1 witness: with a backend that refuses every connection,
`calculate_emi` returns the `backend_error` dictionary carrying the
exception text and the exact outbound payload, and the details string is
non-empty. -/
theorem c1_amended_backend_error_witness :
    (calculate_emi netDown "http://localhost:8000/api" 100000 (19 / 2) 12
        "reducing").result
      = Except.ok (backendError "connection refused"
          (calculateEmiPayload 100000 (19 / 2) 12 "reducing"))
    ∧ ("connection refused" : String) ≠ "" :=
  ⟨(c1_amended_backend_error netDown "http://localhost:8000/api" 100000 (19 / 2)
      0 12 1 "monthly" "reducing" [] []).1 rfl,
   (c1_amended_backend_error netDown "http://localhost:8000/api" 100000 (19 / 2)
      0 12 1 "monthly" "reducing" [] []).2.2.2.2 "u"
     (HttpOutcome.exn "connection refused")
     (by show ("connection refused" : String) ≠ ""; decide)⟩

/-- C5: when some scenario omits one of the required keys `principal`,
`interestRate` or `tenure`, `compare_loans` propagates an uncaught
`KeyError`: no outbound request is issued, and the error is a raised
exception rather than a returned `backend_error` result. -/
theorem c5_missing_key_no_request (net : Network)
    (baseUrl calculation_method : String)
    (scenarios : List Dict) (s : Dict) (hs : s ∈ scenarios)
    (hmiss : Dict.get s "principal" = none ∨ Dict.get s "interestRate" = none
        ∨ Dict.get s "tenure" = none) :
    (compare_loans net baseUrl scenarios calculation_method).requests = []
    ∧ ∃ e, (compare_loans net baseUrl scenarios calculation_method).result
        = Except.error e := by
  obtain ⟨e, he⟩ :=
    formatScenarios_error calculation_method scenarios s hs hmiss
  exact ⟨by simp [compare_loans, he], ⟨e, by simp [compare_loans, he]⟩⟩

/-- C5 witness: a single scenario missing `principal` aborts the call with
a raised error and no outbound request. -/
theorem c5_missing_key_no_request_witness :
    (compare_loans netDown "http://localhost:8000/api"
        [[("interestRate", Json.num 10), ("tenure", Json.num 12)]]
        "reducing").requests = []
    ∧ ∃ e, (compare_loans netDown "http://localhost:8000/api"
        [[("interestRate", Json.num 10), ("tenure", Json.num 12)]]
        "reducing").result = Except.error e :=
  c5_missing_key_no_request netDown "http://localhost:8000/api" "reducing"
    [[("interestRate", Json.num 10), ("tenure", Json.num 12)]]
    [("interestRate", Json.num 10), ("tenure", Json.num 12)]
    (List.mem_singleton.mpr rfl) (Or.inl rfl)

/-- C7: every outbound request of each of the four tools goes to the URL
obtained by concatenating the configured base URL (read from
`EMI_API_BASE_URL` at startup, for any state of that variable) with the
tool's route, so the base URL is a prefix of every outbound request URL,
and every request carries the fixed 10 second timeout. -/
theorem c7_base_url_and_timeout (env : Option String) (net : Network)
    (principal interestRate prepayment_amount : ℚ)
    (tenure prepayment_start_month : ℤ)
    (prepayment_frequency calculation_method : String)
    (scenarios : List Dict) :
    (∀ req ∈ (calculate_emi net (BASE_URL env) principal interestRate tenure
        calculation_method).requests,
      req.url = BASE_URL env ++ "/calculate-emi" ∧ req.timeout = 10
        ∧ ∃ rest, req.url = BASE_URL env ++ rest)
    ∧ (∀ req ∈ (calculate_schedule net (BASE_URL env) principal interestRate
        tenure calculation_method).requests,
      req.url = BASE_URL env ++ "/amortization-schedule" ∧ req.timeout = 10
        ∧ ∃ rest, req.url = BASE_URL env ++ rest)
    ∧ (∀ req ∈ (compare_loans net (BASE_URL env) scenarios
        calculation_method).requests,
      req.url = BASE_URL env ++ "/compare-loans" ∧ req.timeout = 10
        ∧ ∃ rest, req.url = BASE_URL env ++ rest)
    ∧ (∀ req ∈ (calculate_with_prepayment net (BASE_URL env) principal
        interestRate tenure prepayment_amount prepayment_frequency
        prepayment_start_month calculation_method).requests,
      req.url = BASE_URL env ++ "/calculate-with-prepayment" ∧ req.timeout = 10
        ∧ ∃ rest, req.url = BASE_URL env ++ rest) := by
  refine ⟨?_, ?_, ?_, ?_⟩
  · intro req hreq
    simp [calculate_emi, post_request] at hreq
    subst hreq
    exact ⟨rfl, rfl, "/calculate-emi", rfl⟩
  · intro req hreq
    simp [calculate_schedule, post_request] at hreq
    subst hreq
    exact ⟨rfl, rfl, "/amortization-schedule", rfl⟩
  · intro req hreq
    cases hfmt : formatScenarios calculation_method scenarios with
    | error e => simp [compare_loans, hfmt] at hreq
    | ok formatted =>
      simp [compare_loans, hfmt, post_request] at hreq
      subst hreq
      exact ⟨rfl, rfl, "/compare-loans", rfl⟩
  · intro req hreq
    simp [calculate_with_prepayment, post_request] at hreq
    subst hreq
    exact ⟨rfl, rfl, "/calculate-with-prepayment", rfl⟩

/-- C7 witness: with the variable set to another base URL, the single
request of `calculate_emi` starts with that base URL and carries the 10
second timeout. -/
theorem c7_base_url_and_timeout_witness :
    (⟨"http://example.com/api" ++ "/calculate-emi",
        calculateEmiPayload 100000 (19 / 2) 12 "reducing", 10⟩ : Request).url
      = BASE_URL (some "http://example.com/api") ++ "/calculate-emi"
    ∧ (⟨"http://example.com/api" ++ "/calculate-emi",
        calculateEmiPayload 100000 (19 / 2) 12 "reducing", 10⟩ : Request).timeout
      = 10
    ∧ ∃ rest, (⟨"http://example.com/api" ++ "/calculate-emi",
        calculateEmiPayload 100000 (19 / 2) 12 "reducing", 10⟩ : Request).url
      = BASE_URL (some "http://example.com/api") ++ rest :=
  (c7_base_url_and_timeout (some "http://example.com/api") netDown 100000
      (19 / 2) 0 12 1 "monthly" "reducing" []).1
    ⟨"http://example.com/api" ++ "/calculate-emi",
      calculateEmiPayload 100000 (19 / 2) 12 "reducing", 10⟩
    (by simp [calculate_emi, post_request, BASE_URL, os.getenv])

/-- C8: the outbound payloads of each of the four tool handlers are a
deterministic function of the tool's inputs alone: the same inputs produce
the same requests whatever the backend oracle does, and for the three
fixed-shape tools the sent payload is literally the corresponding payload
function of the inputs. -/
theorem c8_payload_deterministic (baseUrl : String) (net net' : Network)
    (principal interestRate prepayment_amount : ℚ)
    (tenure prepayment_start_month : ℤ)
    (prepayment_frequency calculation_method : String)
    (scenarios : List Dict) :
    ((calculate_emi net baseUrl principal interestRate tenure
        calculation_method).requests
      = (calculate_emi net' baseUrl principal interestRate tenure
          calculation_method).requests
    ∧ (calculate_emi net baseUrl principal interestRate tenure
        calculation_method).requests.map Request.payload
      = [calculateEmiPayload principal interestRate tenure calculation_method])
    ∧ ((calculate_schedule net baseUrl principal interestRate tenure
        calculation_method).requests
      = (calculate_schedule net' baseUrl principal interestRate tenure
          calculation_method).requests
    ∧ (calculate_schedule net baseUrl principal interestRate tenure
        calculation_method).requests.map Request.payload
      = [calculateSchedulePayload principal interestRate tenure
          calculation_method])
    ∧ ((compare_loans net baseUrl scenarios calculation_method).requests
      = (compare_loans net' baseUrl scenarios calculation_method).requests)
    ∧ ((calculate_with_prepayment net baseUrl principal interestRate tenure
        prepayment_amount prepayment_frequency prepayment_start_month
        calculation_method).requests
      = (calculate_with_prepayment net' baseUrl principal interestRate tenure
          prepayment_amount prepayment_frequency prepayment_start_month
          calculation_method).requests
    ∧ (calculate_with_prepayment net baseUrl principal interestRate tenure
        prepayment_amount prepayment_frequency prepayment_start_month
        calculation_method).requests.map Request.payload
      = [calculateWithPrepaymentPayload principal interestRate tenure
          prepayment_amount prepayment_frequency prepayment_start_month
          calculation_method]) := by
  refine ⟨⟨?_, ?_⟩, ⟨?_, ?_⟩, ?_, ⟨?_, ?_⟩⟩
  · simp [calculate_emi, post_request]
  · simp [calculate_emi, post_request]
  · simp [calculate_schedule, post_request]
  · simp [calculate_schedule, post_request]
  · cases hfmt : formatScenarios calculation_method scenarios with
    | error e => simp [compare_loans, hfmt]
    | ok formatted => simp [compare_loans, hfmt, post_request]
  · simp [calculate_with_prepayment, post_request]
  · simp [calculate_with_prepayment, post_request]

/-- C10: for a scenarios list whose elements all contain the required keys,
the outbound scenarios list of `compare_loans` is the pointwise normal form
of the input list — same length and order, every element with exactly the
five keys `name`, `principal`, `annual_rate`, `tenure_months`,
`calculation_method` (extra input keys dropped, an absent name becoming
null) — and an empty input list yields the payload `{"scenarios": []}`,
which is still sent to the backend. -/
theorem c10_scenarios_shape (net : Network) (baseUrl calculation_method : String)
    (scenarios : List Dict)
    (h : ∀ s ∈ scenarios, (Dict.get s "principal").isSome = true
        ∧ (Dict.get s "interestRate").isSome = true
        ∧ (Dict.get s "tenure").isSome = true) :
    formatScenarios calculation_method scenarios
      = Except.ok (scenarios.map (formatScenarioOk calculation_method))
    ∧ (scenarios.map (formatScenarioOk calculation_method)).length
        = scenarios.length
    ∧ (∀ s : Dict, (formatScenarioOk calculation_method s).map Prod.fst
        = ["name", "principal", "annual_rate", "tenure_months",
           "calculation_method"])
    ∧ (compare_loans net baseUrl scenarios calculation_method).requests
        = [⟨baseUrl ++ "/compare-loans",
            Json.obj [("scenarios", Json.arr
              ((scenarios.map (formatScenarioOk calculation_method)).map
                Json.obj))], 10⟩]
    ∧ (compare_loans net baseUrl ([] : List Dict) calculation_method).requests
        = [⟨baseUrl ++ "/compare-loans",
            Json.obj [("scenarios", Json.arr ([] : List Json))], 10⟩] := by
  have hfmt := formatScenarios_eq_ok calculation_method scenarios h
  refine ⟨hfmt, by simp, fun s => rfl, ?_, ?_⟩
  · exact compare_loans_requests_ok net baseUrl calculation_method scenarios _ hfmt
  · exact compare_loans_requests_ok net baseUrl calculation_method [] [] rfl

/-- C10 witness: one complete scenario with an extra key is normalized to
exactly the five backend keys, the extra key is dropped, the absent name
becomes null, and the wrapped payload is sent. -/
theorem c10_scenarios_shape_witness :
    formatScenarios "reducing"
        [[("principal", Json.num 1), ("interestRate", Json.num 2),
          ("tenure", Json.num 3), ("extra", Json.str "x")]]
      = Except.ok [[("name", Json.null), ("principal", Json.num 1),
          ("annual_rate", Json.num 2), ("tenure_months", Json.num 3),
          ("calculation_method", Json.str "reducing")]] :=
  (c10_scenarios_shape netDown "http://localhost:8000/api" "reducing"
      [[("principal", Json.num 1), ("interestRate", Json.num 2),
        ("tenure", Json.num 3), ("extra", Json.str "x")]]
      (by intro s hsmem
          simp only [List.mem_singleton] at hsmem
          subst hsmem
          exact ⟨rfl, rfl, rfl⟩)).1
